import Mathlib

/-!
Verification development for the request state machine of
`cpp/include/tensorrt_llm/batch_manager/llmRequest.h`: the per-request
lifecycle, chunked-context cursor and beam token / log-probability
bookkeeping of the batch manager.

Modelling conventions, mirroring the C++ source:
* `SizeType` (a 32-bit signed integer in the source) is modelled as `Int`;
  token counts in this component stay far below 2^31, so wrap-around is never
  exercised and plain integer arithmetic is faithful.
* `std::vector` is `List`; `vector::resize` is `listResize` below (truncate,
  or pad with value-constructed elements).  A resize call receives a `Nat`
  because `vector::resize` takes `size_t`; every in-contract call site passes
  a nonnegative count, and the theorems restrict to that regime.
* log-probability values (`float` in the source) are carried opaquely: no
  claim computes with them, so they are modelled as `Int` payloads.
* the tensor payload type is a type parameter `T`, matching the C++
  `template <typename TTensor> class GenericLlmRequest`.
* functions that can throw (`TLLM_CHECK_WITH_INFO`, `std::runtime_error`,
  `std::vector::at`) return `Except String`; a thrown exception means the
  mutation did not happen (all throws occur before any modification).
-/

namespace TensorrtLlm.BatchManager

/-- The request lifecycle states, from `enum LlmRequestState_t`. -/
inductive LlmRequestState where
  | REQUEST_STATE_UNKNOWN
  | REQUEST_STATE_CONTEXT_INIT
  | REQUEST_STATE_GENERATION_IN_PROGRESS
  | REQUEST_STATE_GENERATION_COMPLETE
deriving DecidableEq, Repr

/-- The slice of `runtime::SamplingConfig` this component reads: only
`beamWidth` is consulted by `GenericLlmRequest`. -/
structure SamplingConfig where
  beamWidth : Int
deriving DecidableEq, Repr

/-- `std::vector::resize (n)`: truncate to `n` elements, or grow to `n`
elements by appending value-constructed (`pad`) elements. -/
def listResize (l : List α) (n : Nat) (pad : α) : List α :=
  if n ≤ l.length then l.take n else l ++ List.replicate (n - l.length) pad

/-- The mutable state of `GenericLlmRequest<TTensor>`, fields in source
order.  `T` is the tensor payload type (`TTensor`). -/
structure GenericLlmRequest (T : Type) where
  mRequestId : Nat
  mPromptLen : Int
  mMaxNewTokens : Int
  mSamplingConfig : SamplingConfig
  mState : LlmRequestState
  mIsStreaming : Bool
  mEndId : Option Int
  mPadId : Option Int
  mSeqSlot : Int
  mOrigPromptLen : Int
  mTokens : List (List Int)
  mMaxSentTokenPos : Int
  mEmbeddingBias : Option T
  mBadWordsList : Option T
  mStopWordsList : Option T
  mPromptEmbeddingTable : Option T
  mPromptVocabSize : Option Int
  mLoraWeights : Option T
  mLoraConfig : Option T
  mReturnLogProbs : Bool
  mContextChunkSize : Option Int
  mContextCurrentPosition : Int
  mLogProbs : List (List Int)
  mCumLogProbs : List Int
  mDraftTokens : List Int
  mDraftLogits : Option T
  mContextLogitsHost : Option T
  mGenerationLogitsHost : Option T
  mGenerationLogitsFragments : List T
deriving DecidableEq

/-- The constructor arguments of `GenericLlmRequest`, with the C++ default
arguments as field defaults. -/
structure MkArgs (T : Type) where
  requestId : Nat
  maxNewTokens : Int
  inputTokens : List Int
  samplingConfig : SamplingConfig
  isStreaming : Bool
  endId : Option Int := none
  padId : Option Int := none
  embeddingBias : Option T := none
  badWordsList : Option T := none
  stopWordsList : Option T := none
  promptEmbeddingTable : Option T := none
  promptVocabSize : Option Int := none
  loraWeights : Option T := none
  loraConfig : Option T := none
  returnLogProbs : Bool := false
  draftTokens : Option (List Int) := none
  draftLogits : Option T := none
deriving DecidableEq

/-- The `GenericLlmRequest` constructor.  It populates every field (the
initializer list plus the two body assignments of `mMaxSentTokenPos` and
`mTokens`) and then runs the two validation checks, throwing
`std::runtime_error` when either fails; a throw means the request never
comes into existence. -/
def mkGenericLlmRequest (a : MkArgs T) : Except String (GenericLlmRequest T) :=
  let r : GenericLlmRequest T :=
    { mRequestId := a.requestId
      mPromptLen := a.inputTokens.length
      mMaxNewTokens := a.maxNewTokens
      mSamplingConfig := a.samplingConfig
      mState := .REQUEST_STATE_CONTEXT_INIT
      mIsStreaming := a.isStreaming
      mEndId := a.endId
      mPadId := a.padId
      mSeqSlot := -1
      mOrigPromptLen := a.inputTokens.length
      mTokens := List.replicate a.samplingConfig.beamWidth.toNat a.inputTokens
      mMaxSentTokenPos := (a.inputTokens.length : Int) - 1
      mEmbeddingBias := a.embeddingBias
      mBadWordsList := a.badWordsList
      mStopWordsList := a.stopWordsList
      mPromptEmbeddingTable := a.promptEmbeddingTable
      mPromptVocabSize := a.promptVocabSize
      mLoraWeights := a.loraWeights
      mLoraConfig := a.loraConfig
      mReturnLogProbs := a.returnLogProbs
      mContextChunkSize := none
      mContextCurrentPosition := 0
      mLogProbs := List.replicate a.samplingConfig.beamWidth.toNat []
      mCumLogProbs := List.replicate a.samplingConfig.beamWidth.toNat 0
      mDraftTokens := a.draftTokens.getD []
      mDraftLogits := a.draftLogits
      mContextLogitsHost := none
      mGenerationLogitsHost := none
      mGenerationLogitsFragments := [] }
  if (a.promptEmbeddingTable.isSome ∧ ¬ a.promptVocabSize.isSome)
      ∨ (¬ a.promptEmbeddingTable.isSome ∧ a.promptVocabSize.isSome) then
    .error "Prompt embedding table and prompt vocab size tensors must both be provided for requests with prompt tuning enabled."
  else if a.draftLogits.isSome ∧ ¬ a.draftTokens.isSome then
    .error "Draft tokens must be specified when draft logits are given."
  else
    .ok r

namespace GenericLlmRequest

variable {T : Type}

/-- `getMaxBeamNumTokens`: maximum sequence length over beams
`0 .. beamWidth-1`.  The C++ loop reads `mTokens.at(beam)`; every reachable
state has exactly `beamWidth` beam sequences so the access is in range, and
the model uses `getD` with an empty default to stay total. -/
def getMaxBeamNumTokens (r : GenericLlmRequest T) : Int :=
  (List.range r.mSamplingConfig.beamWidth.toNat).foldl
    (fun m b => max m ((r.mTokens.getD b []).length : Int)) 0

/-- `getMaxNumGeneratedTokens`: generated-token count of the longest beam. -/
def getMaxNumGeneratedTokens (r : GenericLlmRequest T) : Int :=
  r.getMaxBeamNumTokens - r.mPromptLen

/-- `isContextInitState`. -/
def isContextInitState (r : GenericLlmRequest T) : Bool :=
  r.mState = .REQUEST_STATE_CONTEXT_INIT

/-- `isGenerationInProgessState`. -/
def isGenerationInProgessState (r : GenericLlmRequest T) : Bool :=
  r.mState = .REQUEST_STATE_GENERATION_IN_PROGRESS

/-- `isFullContextRequest`: in context phase with no chunk size assigned. -/
def isFullContextRequest (r : GenericLlmRequest T) : Bool :=
  r.isContextInitState && r.mContextChunkSize.isNone

/-- `getContextCurrentPosition`. -/
def getContextCurrentPosition (r : GenericLlmRequest T) : Int :=
  r.mContextCurrentPosition

/-- `getContextRemainingLength`. -/
def getContextRemainingLength (r : GenericLlmRequest T) : Int :=
  r.mPromptLen - r.mContextCurrentPosition

/-- `getContextChunkSize`: throws unless in `ContextInit` with an assigned
chunk size. -/
def getContextChunkSize (r : GenericLlmRequest T) : Except String Int :=
  if r.isContextInitState ∧ r.mContextChunkSize.isSome then
    .ok (r.mContextChunkSize.getD 0)
  else
    .error "The current request is not in context chunking state."

/-- `setContextChunkSize`: throws outside `ContextInit` or on a negative
size; otherwise caps the size to the unprocessed remainder. -/
def setContextChunkSize (r : GenericLlmRequest T) (size : Int) :
    Except String (GenericLlmRequest T) :=
  if ¬ r.isContextInitState then
    .error "Chunking is only possible during the context phase."
  else if size < 0 then
    .error "The chunk size of context can not be negative."
  else
    .ok { r with mContextChunkSize := some (min size r.getContextRemainingLength) }

/-- `isLastContextChunk`.  The source short-circuits: `getContextChunkSize`
is only evaluated when the state is `ContextInit` with a chunk assigned, so
the `getD 0` here is never the deciding value. -/
def isLastContextChunk (r : GenericLlmRequest T) : Bool :=
  r.isFullContextRequest
    || (r.isContextInitState
        && decide (r.getContextCurrentPosition + r.mContextChunkSize.getD 0 = r.mPromptLen))

/-- `isFirstContextChunk`. -/
def isFirstContextChunk (r : GenericLlmRequest T) : Bool :=
  r.isFullContextRequest || decide (r.getContextCurrentPosition = 0)

/-- `moveToNextContextChunk`: throws outside `ContextInit`.  With a chunk
size assigned (the `mContextChunkSize` optional is engaged, possibly with
value 0), advances the position by it (`getContextChunkSize` succeeds here:
the state is `ContextInit` and the optional is engaged, so it is the
engaged value, `getD 0`) and re-runs `setContextChunkSize 0`; otherwise
requires position 0 and jumps to the end of the prompt. -/
def moveToNextContextChunk (r : GenericLlmRequest T) :
    Except String (GenericLlmRequest T) :=
  if ¬ r.isContextInitState then
    .error "Chunking is only possible during the context phase."
  else if r.mContextChunkSize.isSome then
    setContextChunkSize
      { r with mContextCurrentPosition := r.mContextCurrentPosition + r.mContextChunkSize.getD 0 } 0
  else if r.mContextCurrentPosition ≠ 0 then
    .error "Full context out of bounds."
  else
    .ok { r with mContextCurrentPosition := r.mPromptLen }

/-- `addNewToken`: push one token onto one beam.  `mTokens.at(beam)` throws
on an out-of-range beam index. -/
def addNewToken (r : GenericLlmRequest T) (token beam : Int) :
    Except String (GenericLlmRequest T) :=
  if 0 ≤ beam ∧ beam.toNat < r.mTokens.length then
    .ok { r with
      mTokens := r.mTokens.set beam.toNat (r.mTokens.getD beam.toNat [] ++ [token]) }
  else
    .error "vector at: beam index out of range"

end GenericLlmRequest

/-- Elementwise push for `addNewTokens`: the C++ loop runs over the indices
of `beamTokens` and appends `beamTokens[beam]` to `mTokens.at(beam)`; beams
past the end of `beamTokens` are untouched. -/
def pushEach : List (List Int) → List Int → List (List Int)
  | ts, [] => ts
  | [], _ :: _ => []
  | ts :: rest, t :: more => (ts ++ [t]) :: pushEach rest more

/-- Elementwise replacement for `setGeneratedTokens`: the C++ loop runs over
the indices of `generatedBeamTokens`, resizes `mTokens[beam]` to the prompt
and appends the given generated suffix; beams past the end are untouched. -/
def replaceGenerated (promptLen : Nat) : List (List Int) → List (List Int) → List (List Int)
  | ts, [] => ts
  | [], _ :: _ => []
  | ts :: rest, g :: more => (listResize ts promptLen 0 ++ g) :: replaceGenerated promptLen rest more

/-- Clear the first `k` inner lists (the per-beam log-prob clear loop of the
multi-beam `pause` branch, which runs over the beam indices of `mTokens`). -/
def clearFirst : Nat → List (List Int) → List (List Int)
  | 0, l => l
  | _ + 1, [] => []
  | k + 1, _ :: rest => [] :: clearFirst k rest

/-- Resize the first `k` inner lists to length `n` (the per-beam log-prob
resize loop of the single-beam `pause` branch). -/
def resizeFirst : Nat → Nat → List (List Int) → List (List Int)
  | 0, _, l => l
  | _ + 1, _, [] => []
  | k + 1, n, lp :: rest => listResize lp n 0 :: resizeFirst k n rest

namespace GenericLlmRequest

variable {T : Type}

/-- `addNewTokens`: append one token to every beam.  The `assert` requires
the argument to hold exactly `beamWidth` entries; `mTokens.at(beam)` further
requires every touched index to be in range. -/
def addNewTokens (r : GenericLlmRequest T) (beamTokens : List Int) :
    Except String (GenericLlmRequest T) :=
  if beamTokens.length = r.mSamplingConfig.beamWidth.toNat
      ∧ beamTokens.length ≤ r.mTokens.length then
    .ok { r with mTokens := pushEach r.mTokens beamTokens }
  else
    .error "addNewTokens: beam count mismatch"

/-- `setGeneratedTokens`: atomically replace the generated suffix of every
beam.  The `assert` requires exactly `beamWidth` entries. -/
def setGeneratedTokens (r : GenericLlmRequest T) (generatedBeamTokens : List (List Int)) :
    Except String (GenericLlmRequest T) :=
  if generatedBeamTokens.length = r.mSamplingConfig.beamWidth.toNat
      ∧ generatedBeamTokens.length ≤ r.mTokens.length then
    .ok { r with mTokens := replaceGenerated r.mPromptLen.toNat r.mTokens generatedBeamTokens }
  else
    .error "setGeneratedTokens: beam count mismatch"

/-- `pause`: multi-beam requests reset every beam to the current prompt
(discarding log-probs); a single-beam request reclassifies generated tokens
up to `maxInputLen` as prompt and shrinks the max-new-tokens budget.  Both
paths reset the chunk cursor, clear the chunk size, clear the execution slot
and return to `ContextInit`. -/
def pause (r : GenericLlmRequest T) (maxInputLen : Int) : GenericLlmRequest T :=
  let r1 :=
    if 1 < r.mSamplingConfig.beamWidth then
      { r with
        mTokens := r.mTokens.map (fun ts => listResize ts r.mPromptLen.toNat 0)
        mLogProbs :=
          if r.mReturnLogProbs then clearFirst r.mTokens.length r.mLogProbs
          else r.mLogProbs }
    else
      let newPromptLen := min maxInputLen (r.mPromptLen + r.getMaxNumGeneratedTokens)
      { r with
        mTokens := r.mTokens.map (fun ts => listResize ts newPromptLen.toNat 0)
        mLogProbs :=
          if r.mReturnLogProbs then
            resizeFirst r.mTokens.length (newPromptLen - r.mPromptLen).toNat r.mLogProbs
          else r.mLogProbs
        mMaxNewTokens := r.mMaxNewTokens - (newPromptLen - r.mPromptLen)
        mPromptLen := newPromptLen }
  { r1 with
    mState := .REQUEST_STATE_CONTEXT_INIT
    mContextCurrentPosition := 0
    mContextChunkSize := none
    mSeqSlot := -1 }

/-- `setMaxSentTokenPos`. -/
def setMaxSentTokenPos (r : GenericLlmRequest T) (pos : Int) : GenericLlmRequest T :=
  { r with mMaxSentTokenPos := pos }

/-- `setLogProbs`: resize the addressed beam log-prob sequence to the
pause-aware offset `mPromptLen - mOrigPromptLen` and append the given
values.  `mLogProbs.at(beam)` throws on an out-of-range beam index. -/
def setLogProbs (r : GenericLlmRequest T) (logProbs : List Int) (beam : Int) :
    Except String (GenericLlmRequest T) :=
  if 0 ≤ beam ∧ beam.toNat < r.mLogProbs.length then
    .ok { r with
      mLogProbs := r.mLogProbs.set beam.toNat
        (listResize (r.mLogProbs.getD beam.toNat [])
          (r.mPromptLen - r.mOrigPromptLen).toNat 0 ++ logProbs) }
  else
    .error "vector at: beam index out of range"

/-- `setCumLogProb`: overwrite the cumulative log-prob scalar of one beam. -/
def setCumLogProb (r : GenericLlmRequest T) (cumLogProb beam : Int) :
    Except String (GenericLlmRequest T) :=
  if 0 ≤ beam ∧ beam.toNat < r.mCumLogProbs.length then
    .ok { r with mCumLogProbs := r.mCumLogProbs.set beam.toNat cumLogProb }
  else
    .error "vector at: beam index out of range"

/-- `hasDraftTokens`. -/
def hasDraftTokens (r : GenericLlmRequest T) : Bool :=
  0 < r.mDraftTokens.length

/-- `setDraftTokens` (whole-value replacement). -/
def setDraftTokens (r : GenericLlmRequest T) (draftTokens : List Int) : GenericLlmRequest T :=
  { r with mDraftTokens := draftTokens }

/-- `setDraftLogits` (whole-value replacement). -/
def setDraftLogits (r : GenericLlmRequest T) (draftLogits : Option T) : GenericLlmRequest T :=
  { r with mDraftLogits := draftLogits }

/-- `setContextLogitsHost`. -/
def setContextLogitsHost (r : GenericLlmRequest T) (t : T) : GenericLlmRequest T :=
  { r with mContextLogitsHost := some t }

/-- `setGenerationLogitsHost`. -/
def setGenerationLogitsHost (r : GenericLlmRequest T) (t : T) : GenericLlmRequest T :=
  { r with mGenerationLogitsHost := some t }

/-- `addGenerationFragments`. -/
def addGenerationFragments (r : GenericLlmRequest T) (t : T) : GenericLlmRequest T :=
  { r with mGenerationLogitsFragments := r.mGenerationLogitsFragments ++ [t] }

/-- `clearGenerationLogitsFragments`. -/
def clearGenerationLogitsFragments (r : GenericLlmRequest T) : GenericLlmRequest T :=
  { r with mGenerationLogitsFragments := [] }

end GenericLlmRequest

/-- One mutating operation on a request.  The member functions of
`GenericLlmRequest` appear together with direct writes to the public fields
`mState` and `mSeqSlot`, which the external scheduler performs (the state
transitions out of `ContextInit` and execution-slot assignment are external
per the source layout: those fields are public and have no setter). -/
inductive Op (T : Type) where
  | addNewToken (token beam : Int)
  | addNewTokens (beamTokens : List Int)
  | setGeneratedTokens (generatedBeamTokens : List (List Int))
  | pause (maxInputLen : Int)
  | setMaxSentTokenPos (pos : Int)
  | setLogProbs (logProbs : List Int) (beam : Int)
  | setCumLogProb (cumLogProb beam : Int)
  | setDraftTokens (draftTokens : List Int)
  | setDraftLogits (draftLogits : Option T)
  | setContextChunkSize (size : Int)
  | moveToNextContextChunk
  | setContextLogitsHost (t : T)
  | setGenerationLogitsHost (t : T)
  | addGenerationFragments (t : T)
  | clearGenerationLogitsFragments
  | setState (s : LlmRequestState)
  | setSeqSlot (slot : Int)
deriving DecidableEq

/-- Apply one operation; a thrown C++ exception is an `error` result. -/
def applyOp (r : GenericLlmRequest T) : Op T → Except String (GenericLlmRequest T)
  | .addNewToken token beam => r.addNewToken token beam
  | .addNewTokens beamTokens => r.addNewTokens beamTokens
  | .setGeneratedTokens g => r.setGeneratedTokens g
  | .pause maxInputLen => .ok (r.pause maxInputLen)
  | .setMaxSentTokenPos pos => .ok (r.setMaxSentTokenPos pos)
  | .setLogProbs lp beam => r.setLogProbs lp beam
  | .setCumLogProb c beam => r.setCumLogProb c beam
  | .setDraftTokens dt => .ok (r.setDraftTokens dt)
  | .setDraftLogits dl => .ok (r.setDraftLogits dl)
  | .setContextChunkSize size => r.setContextChunkSize size
  | .moveToNextContextChunk => r.moveToNextContextChunk
  | .setContextLogitsHost t => .ok (r.setContextLogitsHost t)
  | .setGenerationLogitsHost t => .ok (r.setGenerationLogitsHost t)
  | .addGenerationFragments t => .ok (r.addGenerationFragments t)
  | .clearGenerationLogitsFragments => .ok r.clearGenerationLogitsFragments
  | .setState s => .ok { r with mState := s }
  | .setSeqSlot slot => .ok { r with mSeqSlot := slot }

/-- Run a sequence of operations; the sequence aborts at the first throw. -/
def runOps (r : GenericLlmRequest T) : List (Op T) → Except String (GenericLlmRequest T)
  | [] => .ok r
  | op :: rest => (applyOp r op).bind (fun r' => runOps r' rest)

/-- A request state is reachable when it arises from a successful
construction followed by a successful sequence of operations. -/
def ReachableRequest (r : GenericLlmRequest T) : Prop :=
  ∃ (a : MkArgs T) (r0 : GenericLlmRequest T) (ops : List (Op T)),
    mkGenericLlmRequest a = .ok r0 ∧ runOps r0 ops = .ok r

/-- The structural well-formedness facts every reachable request satisfies:
exactly `beamWidth` beam token sequences and log-prob sequences, every beam
sequence at least `promptLen` long, a nonnegative original prompt length,
and — the key unstated fact behind the multi-beam `pause` branch — for
multi-beam requests the prompt length never moves off its original value. -/
def WfInv (r : GenericLlmRequest T) : Prop :=
  r.mTokens.length = r.mSamplingConfig.beamWidth.toNat ∧
  r.mLogProbs.length = r.mSamplingConfig.beamWidth.toNat ∧
  (∀ ts ∈ r.mTokens, r.mPromptLen ≤ (ts.length : Int)) ∧
  0 ≤ r.mOrigPromptLen ∧
  (1 < r.mSamplingConfig.beamWidth → r.mPromptLen = r.mOrigPromptLen)

/-- How one operation affects whether a chunk size is currently assigned
(`mContextChunkSize` engaged): `pause` clears the assignment,
`setContextChunkSize` makes one, and every other operation leaves it alone
(`moveToNextContextChunk` replaces an engaged value by an engaged 0 and
keeps a disengaged one disengaged). -/
def chunkStepFlag (fl : Bool) : Op T → Bool
  | .pause _ => false
  | .setContextChunkSize _ => true
  | _ => fl

/-- Whether a chunk size has been assigned since construction or the most
recent `pause`, read off an operation trace. -/
def chunkAssignedSinceLastPause (ops : List (Op T)) : Bool :=
  ops.foldl chunkStepFlag false

/-- A placeholder request value (only used to give total `match` fallbacks
for constructions that are proved successful). -/
def defaultReq : GenericLlmRequest Unit :=
  { mRequestId := 0
    mPromptLen := 0
    mMaxNewTokens := 0
    mSamplingConfig := { beamWidth := 1 }
    mState := .REQUEST_STATE_UNKNOWN
    mIsStreaming := false
    mEndId := none
    mPadId := none
    mSeqSlot := -1
    mOrigPromptLen := 0
    mTokens := []
    mMaxSentTokenPos := -1
    mEmbeddingBias := none
    mBadWordsList := none
    mStopWordsList := none
    mPromptEmbeddingTable := none
    mPromptVocabSize := none
    mLoraWeights := none
    mLoraConfig := none
    mReturnLogProbs := false
    mContextChunkSize := none
    mContextCurrentPosition := 0
    mLogProbs := []
    mCumLogProbs := []
    mDraftTokens := []
    mDraftLogits := none
    mContextLogitsHost := none
    mGenerationLogitsHost := none
    mGenerationLogitsFragments := [] }

/-- A single-beam request mid-generation: prompt length 50, one beam holding
70 tokens (20 generated), log-probs returned, matching the pause example of
the specification. -/
def sbReq : GenericLlmRequest Unit :=
  { defaultReq with
    mRequestId := 1
    mPromptLen := 50
    mMaxNewTokens := 100
    mSamplingConfig := { beamWidth := 1 }
    mState := .REQUEST_STATE_GENERATION_IN_PROGRESS
    mSeqSlot := 3
    mOrigPromptLen := 50
    mTokens := [List.replicate 70 9]
    mMaxSentTokenPos := 49
    mReturnLogProbs := true
    mLogProbs := [List.replicate 20 1]
    mCumLogProbs := [0] }

/-- Construction arguments for a beam-width-2 request. -/
def mbArgs : MkArgs Unit :=
  { requestId := 2
    maxNewTokens := 5
    inputTokens := [3, 4]
    samplingConfig := { beamWidth := 2 }
    isStreaming := false
    returnLogProbs := true }

/-- The freshly constructed beam-width-2 request. -/
def mbReq : GenericLlmRequest Unit :=
  match mkGenericLlmRequest mbArgs with
  | .ok r => r
  | .error _ => defaultReq

/-- A request whose prompt length has grown by one pause/resume cycle:
original prompt length 50, current prompt length 60, one beam with 12
stored log-prob values, matching the log-prob offset example of the
specification. -/
def lpReq : GenericLlmRequest Unit :=
  { defaultReq with
    mRequestId := 4
    mPromptLen := 60
    mMaxNewTokens := 90
    mSamplingConfig := { beamWidth := 1 }
    mState := .REQUEST_STATE_GENERATION_IN_PROGRESS
    mOrigPromptLen := 50
    mTokens := [List.replicate 64 9]
    mMaxSentTokenPos := 59
    mReturnLogProbs := true
    mLogProbs := [List.replicate 12 3]
    mCumLogProbs := [0] }

/-- A request in the middle of chunked context processing: prompt length 10,
cursor at 4, a pending chunk of size 3. -/
def ctxReq : GenericLlmRequest Unit :=
  { defaultReq with
    mRequestId := 5
    mPromptLen := 10
    mMaxNewTokens := 7
    mSamplingConfig := { beamWidth := 1 }
    mState := .REQUEST_STATE_CONTEXT_INIT
    mOrigPromptLen := 10
    mTokens := [List.replicate 10 2]
    mMaxSentTokenPos := 9
    mContextChunkSize := some 3
    mContextCurrentPosition := 4
    mLogProbs := [[]]
    mCumLogProbs := [0] }

/-- Construction arguments for the chunking scenario of the specification:
prompt length 100, single beam. -/
def c5Args : MkArgs Unit :=
  { requestId := 0
    maxNewTokens := 10
    inputTokens := List.replicate 100 1
    samplingConfig := { beamWidth := 1 }
    isStreaming := false }

/-- The request state reached from `c5Args` after a given operation trace. -/
def c5State (ops : List (Op Unit)) : Except String (GenericLlmRequest Unit) :=
  (mkGenericLlmRequest c5Args).bind (fun r0 => runOps r0 ops)

/-- Construction arguments for the chunk-assignment history scenario:
prompt `[7, 8]`, single beam. -/
def cexArgs : MkArgs Unit :=
  { requestId := 6
    maxNewTokens := 10
    inputTokens := [7, 8]
    samplingConfig := { beamWidth := 1 }
    isStreaming := false }

/-- A trace that assigns a chunk size and then pauses. -/
def cexOps : List (Op Unit) :=
  [Op.setContextChunkSize 1, Op.pause 5]

/-- Whether an operation is a `setContextChunkSize` call. -/
def isChunkAssignOp : Op T → Bool
  | .setContextChunkSize _ => true
  | _ => false

/-- Construction arguments with both draft fields provided and prompt
tuning fully paired. -/
def c9ArgsOk : MkArgs Unit :=
  { requestId := 7
    maxNewTokens := 4
    inputTokens := [1, 2, 3]
    samplingConfig := { beamWidth := 2 }
    isStreaming := false
    draftTokens := some [9]
    draftLogits := some () }

/-- Construction arguments with draft logits but no draft tokens. -/
def c9ArgsBad : MkArgs Unit :=
  { requestId := 8
    maxNewTokens := 4
    inputTokens := [1, 2, 3]
    samplingConfig := { beamWidth := 1 }
    isStreaming := false
    draftLogits := some () }

/-- The request constructed from `c9ArgsOk`. -/
def c10Req : GenericLlmRequest Unit :=
  match mkGenericLlmRequest c9ArgsOk with
  | .ok r => r
  | .error _ => defaultReq

/-- The first `k` operations of the chunking scenario with assigned sizes
30, 30, 30, 10: alternating `setContextChunkSize` / `moveToNextContextChunk`
calls. -/
def c5Trace (k : Nat) : List (Op Unit) :=
  List.take k
    [Op.setContextChunkSize 30, Op.moveToNextContextChunk,
     Op.setContextChunkSize 30, Op.moveToNextContextChunk,
     Op.setContextChunkSize 30, Op.moveToNextContextChunk,
     Op.setContextChunkSize 10, Op.moveToNextContextChunk]

/-- The request constructed from `cexArgs`. -/
def cexR0 : GenericLlmRequest Unit :=
  match mkGenericLlmRequest cexArgs with
  | .ok r => r
  | .error _ => defaultReq

/-- The request reached from `cexArgs` after `cexOps` (assign a chunk size,
then pause). -/
def cexR : GenericLlmRequest Unit :=
  match (mkGenericLlmRequest cexArgs).bind (fun r0 => runOps r0 cexOps) with
  | .ok r => r
  | .error _ => defaultReq

theorem length_listResize (l : List α) (n : Nat) (pad : α) :
    (listResize l n pad).length = n := by
  unfold listResize
  split
  · simp [List.length_take]; omega
  · simp; omega

theorem listResize_eq_take (l : List α) (n : Nat) (pad : α) (h : n ≤ l.length) :
    listResize l n pad = l.take n := by
  unfold listResize
  exact if_pos h

theorem length_pushEach (l : List (List Int)) (b : List Int) :
    (pushEach l b).length = l.length := by
  induction l generalizing b with
  | nil => cases b <;> rfl
  | cons ts rest ih =>
      cases b with
      | nil => rfl
      | cons t more => simpa [pushEach] using ih more

theorem mem_pushEach (l : List (List Int)) (b : List Int) :
    ∀ x ∈ pushEach l b, ∃ ts ∈ l, ts.length ≤ x.length := by
  induction l generalizing b with
  | nil => cases b <;> intro x hx <;> simp [pushEach] at hx
  | cons ts rest ih =>
      cases b with
      | nil =>
          intro x hx
          exact ⟨x, hx, le_refl _⟩
      | cons t more =>
          intro x hx
          rcases List.mem_cons.mp hx with h | h
          · exact ⟨ts, List.mem_cons_self .., by simp [h]⟩
          · obtain ⟨ts', hts', hle⟩ := ih more x h
            exact ⟨ts', List.mem_cons_of_mem _ hts', hle⟩

theorem length_replaceGenerated (p : Nat) (l g : List (List Int)) :
    (replaceGenerated p l g).length = l.length := by
  induction l generalizing g with
  | nil => cases g <;> rfl
  | cons ts rest ih =>
      cases g with
      | nil => rfl
      | cons x more => simpa [replaceGenerated] using ih more

theorem mem_replaceGenerated (p : Nat) (l g : List (List Int)) :
    ∀ x ∈ replaceGenerated p l g, (p ≤ x.length) ∨ x ∈ l := by
  induction l generalizing g with
  | nil => cases g <;> intro x hx <;> simp [replaceGenerated] at hx
  | cons ts rest ih =>
      cases g with
      | nil =>
          intro x hx
          exact Or.inr hx
      | cons y more =>
          intro x hx
          rcases List.mem_cons.mp hx with h | h
          · left
            have := length_listResize ts p (0 : Int)
            simp [h, this]
          · rcases ih more x h with h' | h'
            · exact Or.inl h'
            · exact Or.inr (List.mem_cons_of_mem _ h')

theorem clearFirst_eq_map (l : List (List Int)) :
    clearFirst l.length l = l.map (fun _ => []) := by
  induction l with
  | nil => rfl
  | cons x rest ih => simpa [clearFirst] using ih

theorem length_clearFirst (k : Nat) (l : List (List Int)) :
    (clearFirst k l).length = l.length := by
  induction k generalizing l with
  | zero => rfl
  | succ k ih => cases l with
      | nil => rfl
      | cons x rest => simpa [clearFirst] using ih rest

theorem resizeFirst_eq_map (n : Nat) (l : List (List Int)) :
    resizeFirst l.length n l = l.map (fun lp => listResize lp n 0) := by
  induction l with
  | nil => rfl
  | cons x rest ih => simpa [resizeFirst] using ih

theorem length_resizeFirst (k n : Nat) (l : List (List Int)) :
    (resizeFirst k n l).length = l.length := by
  induction k generalizing l with
  | zero => rfl
  | succ k ih => cases l with
      | nil => rfl
      | cons x rest => simpa [resizeFirst] using ih rest

theorem mk_wf (a : MkArgs T) (r : GenericLlmRequest T)
    (h : mkGenericLlmRequest a = .ok r) : WfInv r := by
  unfold mkGenericLlmRequest at h
  split at h
  · exact absurd h (by simp)
  · split at h
    · exact absurd h (by simp)
    · cases h
      refine ⟨by simp, by simp, ?_, by positivity, fun _ => rfl⟩
      intro ts hts
      rw [List.eq_of_mem_replicate hts]

theorem setContextChunkSize_fields (r r' : GenericLlmRequest T) (size : Int)
    (h : r.setContextChunkSize size = .ok r') :
    r' = { r with mContextChunkSize := some (min size r.getContextRemainingLength) } := by
  unfold GenericLlmRequest.setContextChunkSize at h
  split at h
  · exact absurd h (by simp)
  · split at h
    · exact absurd h (by simp)
    · cases h; rfl

theorem pause_wf (r : GenericLlmRequest T) (maxInputLen : Int)
    (hw : WfInv r) : WfInv (r.pause maxInputLen) := by
  obtain ⟨h1, h2, h3, h4, h5⟩ := hw
  by_cases hbw : 1 < r.mSamplingConfig.beamWidth
  · simp only [GenericLlmRequest.pause, hbw, if_true]
    refine ⟨by simpa using h1, ?_, ?_, h4, fun _ => h5 hbw⟩
    · simp only
      split
      · simpa [length_clearFirst] using h2
      · exact h2
    · intro ts hts
      simp only [List.mem_map] at hts
      obtain ⟨ts0, _, rfl⟩ := hts
      rw [length_listResize]
      exact Int.self_le_toNat _
  · simp only [GenericLlmRequest.pause, hbw, if_false]
    refine ⟨by simpa using h1, ?_, ?_, h4, fun h => absurd h hbw⟩
    · simp only
      split
      · simpa [length_resizeFirst] using h2
      · exact h2
    · intro ts hts
      simp only [List.mem_map] at hts
      obtain ⟨ts0, _, rfl⟩ := hts
      rw [length_listResize]
      exact Int.self_le_toNat _

theorem applyOp_wf (r r' : GenericLlmRequest T) (op : Op T)
    (hw : WfInv r) (h : applyOp r op = .ok r') : WfInv r' := by
  obtain ⟨h1, h2, h3, h4, h5⟩ := hw
  cases op with
  | addNewToken token beam =>
      simp only [applyOp] at h
      unfold GenericLlmRequest.addNewToken at h
      split at h
      · rename_i hc
        cases h
        refine ⟨by simpa using h1, h2, ?_, h4, h5⟩
        intro ts hts
        simp only at hts
        rcases List.mem_or_eq_of_mem_set hts with hmem | rfl
        · exact h3 ts hmem
        · rw [List.getD_eq_getElem _ _ hc.2]
          have := h3 _ (List.getElem_mem hc.2)
          simp only [List.length_append, List.length_singleton]
          omega
      · exact Except.noConfusion h
  | addNewTokens beamTokens =>
      simp only [applyOp] at h
      unfold GenericLlmRequest.addNewTokens at h
      split at h
      · cases h
        refine ⟨by simpa [length_pushEach] using h1, h2, ?_, h4, h5⟩
        intro ts hts
        obtain ⟨ts0, hts0, hle⟩ := mem_pushEach r.mTokens beamTokens ts hts
        exact le_trans (h3 ts0 hts0) (by exact_mod_cast hle)
      · exact Except.noConfusion h
  | setGeneratedTokens g =>
      simp only [applyOp] at h
      unfold GenericLlmRequest.setGeneratedTokens at h
      split at h
      · cases h
        refine ⟨by simpa [length_replaceGenerated] using h1, h2, ?_, h4, h5⟩
        intro ts hts
        rcases mem_replaceGenerated r.mPromptLen.toNat r.mTokens g ts hts with hp | hmem
        · calc r.mPromptLen ≤ (r.mPromptLen.toNat : Int) := Int.self_le_toNat _
            _ ≤ (ts.length : Int) := by exact_mod_cast hp
        · exact h3 ts hmem
      · exact Except.noConfusion h
  | pause maxInputLen =>
      simp only [applyOp] at h
      cases h
      exact pause_wf r maxInputLen ⟨h1, h2, h3, h4, h5⟩
  | setMaxSentTokenPos pos =>
      simp only [applyOp] at h; cases h; exact ⟨h1, h2, h3, h4, h5⟩
  | setLogProbs lp beam =>
      simp only [applyOp] at h
      unfold GenericLlmRequest.setLogProbs at h
      split at h
      · cases h
        exact ⟨h1, by simpa using h2, h3, h4, h5⟩
      · exact Except.noConfusion h
  | setCumLogProb c beam =>
      simp only [applyOp] at h
      unfold GenericLlmRequest.setCumLogProb at h
      split at h
      · cases h
        exact ⟨h1, h2, h3, h4, h5⟩
      · exact Except.noConfusion h
  | setDraftTokens dt =>
      simp only [applyOp] at h; cases h; exact ⟨h1, h2, h3, h4, h5⟩
  | setDraftLogits dl =>
      simp only [applyOp] at h; cases h; exact ⟨h1, h2, h3, h4, h5⟩
  | setContextChunkSize size =>
      simp only [applyOp] at h
      have := setContextChunkSize_fields r r' size h
      subst this
      exact ⟨h1, h2, h3, h4, h5⟩
  | moveToNextContextChunk =>
      simp only [applyOp] at h
      unfold GenericLlmRequest.moveToNextContextChunk at h
      split at h
      · exact Except.noConfusion h
      · split at h
        · have := setContextChunkSize_fields _ r' 0 h
          subst this
          exact ⟨h1, h2, h3, h4, h5⟩
        · split at h
          · exact Except.noConfusion h
          · cases h
            exact ⟨h1, h2, h3, h4, h5⟩
  | setContextLogitsHost t =>
      simp only [applyOp] at h; cases h; exact ⟨h1, h2, h3, h4, h5⟩
  | setGenerationLogitsHost t =>
      simp only [applyOp] at h; cases h; exact ⟨h1, h2, h3, h4, h5⟩
  | addGenerationFragments t =>
      simp only [applyOp] at h; cases h; exact ⟨h1, h2, h3, h4, h5⟩
  | clearGenerationLogitsFragments =>
      simp only [applyOp] at h; cases h; exact ⟨h1, h2, h3, h4, h5⟩
  | setState s =>
      simp only [applyOp] at h; cases h; exact ⟨h1, h2, h3, h4, h5⟩
  | setSeqSlot slot =>
      simp only [applyOp] at h; cases h; exact ⟨h1, h2, h3, h4, h5⟩

theorem runOps_wf (ops : List (Op T)) (r0 r : GenericLlmRequest T)
    (hw : WfInv r0) (h : runOps r0 ops = .ok r) : WfInv r := by
  induction ops generalizing r0 with
  | nil => cases h; exact hw
  | cons op rest ih =>
      unfold runOps at h
      cases happ : applyOp r0 op with
      | error e => rw [happ] at h; exact absurd h (by simp [Except.bind])
      | ok r1 =>
          rw [happ] at h
          exact ih r1 (applyOp_wf r0 r1 op hw happ) (by simpa [Except.bind] using h)

theorem wfInv_of_reachable (r : GenericLlmRequest T)
    (h : ReachableRequest r) : WfInv r := by
  obtain ⟨a, r0, ops, h0, h1⟩ := h
  exact runOps_wf ops r0 r (mk_wf a r0 h0) h1

theorem applyOp_chunkIsSome (r r' : GenericLlmRequest T) (op : Op T)
    (h : applyOp r op = .ok r') :
    r'.mContextChunkSize.isSome = chunkStepFlag r.mContextChunkSize.isSome op := by
  cases op with
  | pause m =>
      simp only [applyOp] at h; cases h; rfl
  | setContextChunkSize size =>
      simp only [applyOp] at h
      have := setContextChunkSize_fields r r' size h
      subst this; rfl
  | moveToNextContextChunk =>
      simp only [applyOp] at h
      unfold GenericLlmRequest.moveToNextContextChunk at h
      split at h
      · exact Except.noConfusion h
      · split at h
        · rename_i hc
          have := setContextChunkSize_fields _ r' 0 h
          subst this
          simp [chunkStepFlag, hc]
        · split at h
          · exact Except.noConfusion h
          · cases h; rfl
  | addNewToken token beam =>
      simp only [applyOp] at h
      unfold GenericLlmRequest.addNewToken at h
      split at h
      · cases h; rfl
      · exact Except.noConfusion h
  | addNewTokens beamTokens =>
      simp only [applyOp] at h
      unfold GenericLlmRequest.addNewTokens at h
      split at h
      · cases h; rfl
      · exact Except.noConfusion h
  | setGeneratedTokens g =>
      simp only [applyOp] at h
      unfold GenericLlmRequest.setGeneratedTokens at h
      split at h
      · cases h; rfl
      · exact Except.noConfusion h
  | setLogProbs lp beam =>
      simp only [applyOp] at h
      unfold GenericLlmRequest.setLogProbs at h
      split at h
      · cases h; rfl
      · exact Except.noConfusion h
  | setCumLogProb c beam =>
      simp only [applyOp] at h
      unfold GenericLlmRequest.setCumLogProb at h
      split at h
      · cases h; rfl
      · exact Except.noConfusion h
  | setMaxSentTokenPos pos => simp only [applyOp] at h; cases h; rfl
  | setDraftTokens dt => simp only [applyOp] at h; cases h; rfl
  | setDraftLogits dl => simp only [applyOp] at h; cases h; rfl
  | setContextLogitsHost t => simp only [applyOp] at h; cases h; rfl
  | setGenerationLogitsHost t => simp only [applyOp] at h; cases h; rfl
  | addGenerationFragments t => simp only [applyOp] at h; cases h; rfl
  | clearGenerationLogitsFragments => simp only [applyOp] at h; cases h; rfl
  | setState s => simp only [applyOp] at h; cases h; rfl
  | setSeqSlot slot => simp only [applyOp] at h; cases h; rfl

theorem runOps_chunkIsSome (ops : List (Op T)) (r0 r : GenericLlmRequest T)
    (h : runOps r0 ops = .ok r) :
    r.mContextChunkSize.isSome = ops.foldl chunkStepFlag r0.mContextChunkSize.isSome := by
  induction ops generalizing r0 with
  | nil => cases h; rfl
  | cons op rest ih =>
      unfold runOps at h
      cases happ : applyOp r0 op with
      | error e => rw [happ] at h; exact Except.noConfusion h
      | ok r1 =>
          rw [happ] at h
          have h1 : runOps r1 rest = .ok r := by simpa [Except.bind] using h
          rw [List.foldl_cons, ← applyOp_chunkIsSome r0 r1 op happ]
          exact ih r1 h1

theorem mk_chunkIsNone (a : MkArgs T) (r : GenericLlmRequest T)
    (h : mkGenericLlmRequest a = .ok r) : r.mContextChunkSize = none := by
  unfold mkGenericLlmRequest at h
  split at h
  · exact Except.noConfusion h
  · split at h
    · exact Except.noConfusion h
    · cases h; rfl

theorem mk_state (a : MkArgs T) (r : GenericLlmRequest T)
    (h : mkGenericLlmRequest a = .ok r) :
    r.mState = .REQUEST_STATE_CONTEXT_INIT ∧
    r.mTokens = List.replicate a.samplingConfig.beamWidth.toNat a.inputTokens ∧
    r.mMaxSentTokenPos = (a.inputTokens.length : Int) - 1 ∧
    r.mPromptLen = a.inputTokens.length ∧
    r.mOrigPromptLen = a.inputTokens.length := by
  unfold mkGenericLlmRequest at h
  split at h
  · exact Except.noConfusion h
  · split at h
    · exact Except.noConfusion h
    · cases h; exact ⟨rfl, rfl, rfl, rfl, rfl⟩

/-- Claim C6: `setContextChunkSize(size)` fails (fatal precondition
violation) exactly when the request is not in `ContextInit` or `size < 0`;
otherwise it sets the chunk size to `min(size, promptLen - position)` and
changes nothing else. -/
theorem setContextChunkSize_spec (r : GenericLlmRequest T) (size : Int) :
    ((r.setContextChunkSize size).isOk = true ↔
      (r.isContextInitState = true ∧ 0 ≤ size)) ∧
    (r.isContextInitState = true → 0 ≤ size →
      r.setContextChunkSize size =
        .ok { r with
          mContextChunkSize := some (min size (r.mPromptLen - r.mContextCurrentPosition)) }) := by
  constructor
  · unfold GenericLlmRequest.setContextChunkSize
    by_cases hst : r.isContextInitState = true
    · by_cases hsz : size < 0
      · rw [if_neg (by simp [hst]), if_pos hsz]
        exact iff_of_false (fun h => Bool.noConfusion h) (fun h => absurd h.2 (by omega))
      · rw [if_neg (by simp [hst]), if_neg hsz]
        exact iff_of_true rfl ⟨hst, by omega⟩
    · rw [if_pos (by simp [hst])]
      exact iff_of_false (fun h => Bool.noConfusion h) (fun h => hst h.1)
  · intro h1 h2
    unfold GenericLlmRequest.setContextChunkSize
    rw [if_neg (by simp [h1]), if_neg (by omega)]
    rfl

/-- Witness for `setContextChunkSize_spec` at `ctxReq` with size 5. -/
theorem setContextChunkSize_spec_witness :
    ctxReq.setContextChunkSize 5 =
      .ok { ctxReq with
        mContextChunkSize := some (min 5 (ctxReq.mPromptLen - ctxReq.mContextCurrentPosition)) } :=
  (setContextChunkSize_spec ctxReq 5).2 (by decide) (by decide)

/-- Claim C7: `moveToNextContextChunk()` fails when the request is not in
`ContextInit`; with a chunk size assigned it advances the position by the
chunk size and resets the chunk size to 0; with no chunk size assigned it
requires position 0 (failing otherwise) and jumps to `position = promptLen`
in one step. -/
theorem moveToNextContextChunk_spec (r : GenericLlmRequest T) :
    ((r.moveToNextContextChunk).isOk = true ↔
      (r.isContextInitState = true ∧
        (r.mContextChunkSize ≠ none ∨ r.mContextCurrentPosition = 0))) ∧
    (∀ c : Int, r.isContextInitState = true → r.mContextChunkSize = some c →
      r.mContextCurrentPosition + c ≤ r.mPromptLen →
      r.moveToNextContextChunk =
        .ok { r with
          mContextCurrentPosition := r.mContextCurrentPosition + c
          mContextChunkSize := some 0 }) ∧
    (r.isContextInitState = true → r.mContextChunkSize = none →
      r.mContextCurrentPosition = 0 →
      r.moveToNextContextChunk =
        .ok { r with mContextCurrentPosition := r.mPromptLen }) := by
  refine ⟨?_, ?_, ?_⟩
  · unfold GenericLlmRequest.moveToNextContextChunk
    by_cases hst : r.isContextInitState = true
    · have hstate : r.mState = .REQUEST_STATE_CONTEXT_INIT := by
        simpa [GenericLlmRequest.isContextInitState] using hst
      rw [if_neg (by simp [hst])]
      cases hc : r.mContextChunkSize with
      | some c =>
          rw [if_pos (by simp [hc])]
          unfold GenericLlmRequest.setContextChunkSize
          rw [if_neg (by simp [GenericLlmRequest.isContextInitState, hstate]),
            if_neg (by omega)]
          exact iff_of_true rfl ⟨hst, Or.inl (by simp [hc])⟩
      | none =>
          rw [if_neg (by simp [hc])]
          by_cases hpos : r.mContextCurrentPosition = 0
          · rw [if_neg (by simpa using hpos)]
            exact iff_of_true rfl ⟨hst, Or.inr hpos⟩
          · rw [if_pos (by simpa using hpos)]
            refine iff_of_false (fun h => Bool.noConfusion h) (fun h => ?_)
            rcases h.2 with h' | h'
            · exact h' rfl
            · exact hpos h'
    · rw [if_pos (by simp [hst])]
      exact iff_of_false (fun h => Bool.noConfusion h) (fun h => hst h.1)
  · intro c h1 h2 h3
    have hstate : r.mState = .REQUEST_STATE_CONTEXT_INIT := by
      simpa [GenericLlmRequest.isContextInitState] using h1
    unfold GenericLlmRequest.moveToNextContextChunk
    rw [if_neg (by simp [h1]), if_pos (by simp [h2])]
    unfold GenericLlmRequest.setContextChunkSize
    rw [if_neg (by simp [GenericLlmRequest.isContextInitState, hstate]),
      if_neg (by omega)]
    unfold GenericLlmRequest.getContextRemainingLength
    simp only [h2, Option.getD_some]
    have hmin : min 0 (r.mPromptLen - (r.mContextCurrentPosition + c)) = 0 :=
      min_eq_left (by omega)
    rw [hmin]
  · intro h1 h2 h3
    unfold GenericLlmRequest.moveToNextContextChunk
    rw [if_neg (by simp [h1]), if_neg (by simp [h2]), if_neg (by simpa using h3)]

/-- Witness for `moveToNextContextChunk_spec` at `ctxReq` (pending chunk of
size 3 at position 4). -/
theorem moveToNextContextChunk_spec_witness :
    ctxReq.moveToNextContextChunk =
      .ok { ctxReq with
        mContextCurrentPosition := ctxReq.mContextCurrentPosition + 3
        mContextChunkSize := some 0 } :=
  (moveToNextContextChunk_spec ctxReq).2.1 3 (by decide) (by decide) (by decide)

/-- Claim C9: construction throws (and the request never comes into
existence) exactly when the prompt-tuning embedding table and prompt vocab
size are not provided together, or draft logits are provided without draft
tokens. -/
theorem mkRequest_failure_iff (a : MkArgs T) :
    (mkGenericLlmRequest a).isOk = false ↔
      ((a.promptEmbeddingTable.isSome = true ∧ a.promptVocabSize.isSome = false) ∨
       (a.promptEmbeddingTable.isSome = false ∧ a.promptVocabSize.isSome = true) ∨
       (a.draftLogits.isSome = true ∧ a.draftTokens.isSome = false)) := by
  cases hpet : a.promptEmbeddingTable.isSome <;>
    cases hpvs : a.promptVocabSize.isSome <;>
      cases hdl : a.draftLogits.isSome <;>
        cases hdt : a.draftTokens.isSome <;>
          simp [mkGenericLlmRequest, hpet, hpvs, hdl, hdt, Except.isOk, Except.toBool]

/-- Witness for `mkRequest_failure_iff`: both draft fields provided
succeeds; draft logits without draft tokens fails. -/
theorem mkRequest_failure_iff_witness :
    (mkGenericLlmRequest c9ArgsOk).isOk = true ∧
    (mkGenericLlmRequest c9ArgsBad).isOk = false := by
  constructor
  · cases hok : (mkGenericLlmRequest c9ArgsOk).isOk
    · exact absurd ((mkRequest_failure_iff c9ArgsOk).mp hok) (by decide)
    · rfl
  · exact (mkRequest_failure_iff c9ArgsBad).mpr (by decide)

/-- Claim C10: a successful construction with prompt of length `L` and beam
width `B` yields exactly `B` beam token sequences, each equal to the prompt,
`maxSentTokenPos = L - 1`, and state `ContextInit`. -/
theorem mkRequest_success_spec (a : MkArgs T) (r : GenericLlmRequest T)
    (h : mkGenericLlmRequest a = .ok r) (hbw : 1 ≤ a.samplingConfig.beamWidth) :
    (r.mTokens.length : Int) = a.samplingConfig.beamWidth ∧
    (∀ ts ∈ r.mTokens, ts = a.inputTokens) ∧
    r.mMaxSentTokenPos = (a.inputTokens.length : Int) - 1 ∧
    r.mState = .REQUEST_STATE_CONTEXT_INIT := by
  obtain ⟨hs, ht, hm, _, _⟩ := mk_state a r h
  refine ⟨?_, ?_, hm, hs⟩
  · rw [ht, List.length_replicate]
    exact Int.toNat_of_nonneg (by omega)
  · intro ts hts
    rw [ht] at hts
    exact List.eq_of_mem_replicate hts

/-- Witness for `mkRequest_success_spec` at `c9ArgsOk` (prompt length 3,
beam width 2). -/
theorem mkRequest_success_spec_witness :
    (c10Req.mTokens.length : Int) = c9ArgsOk.samplingConfig.beamWidth ∧
    (∀ ts ∈ c10Req.mTokens, ts = c9ArgsOk.inputTokens) ∧
    c10Req.mMaxSentTokenPos = (c9ArgsOk.inputTokens.length : Int) - 1 ∧
    c10Req.mState = .REQUEST_STATE_CONTEXT_INIT :=
  mkRequest_success_spec c9ArgsOk c10Req rfl (by decide)

/-- Claim C4: `setLogProbs(values, beam)` stores the values starting at
index `promptLen - origPromptLen` of that beam's log-prob sequence,
discarding whatever was at or beyond that index (the prefix below the
offset is kept, zero-padded if it was shorter); other beams are
untouched. -/
theorem setLogProbs_spec (r : GenericLlmRequest T) (logProbs : List Int) (beam : Int)
    (hb0 : 0 ≤ beam) (hb : beam.toNat < r.mLogProbs.length)
    (hor : r.mOrigPromptLen ≤ r.mPromptLen) :
    ∃ r', r.setLogProbs logProbs beam = .ok r' ∧
      ((r'.mLogProbs.getD beam.toNat []).length : Int)
          = (r.mPromptLen - r.mOrigPromptLen) + logProbs.length ∧
      (r'.mLogProbs.getD beam.toNat []).drop (r.mPromptLen - r.mOrigPromptLen).toNat
          = logProbs ∧
      (r'.mLogProbs.getD beam.toNat []).take (r.mPromptLen - r.mOrigPromptLen).toNat
          = listResize (r.mLogProbs.getD beam.toNat [])
              (r.mPromptLen - r.mOrigPromptLen).toNat 0 ∧
      (∀ b : Nat, b ≠ beam.toNat → r'.mLogProbs.getD b [] = r.mLogProbs.getD b []) ∧
      r'.mLogProbs.length = r.mLogProbs.length := by
  have hnew : (r.mLogProbs.set beam.toNat
      (listResize (r.mLogProbs.getD beam.toNat [])
        (r.mPromptLen - r.mOrigPromptLen).toNat 0 ++ logProbs)).getD beam.toNat []
      = listResize (r.mLogProbs.getD beam.toNat [])
          (r.mPromptLen - r.mOrigPromptLen).toNat 0 ++ logProbs := by
    rw [List.getD_eq_getElem _ _ (by rw [List.length_set]; exact hb)]
    exact List.getElem_set_self _
  have hok : r.setLogProbs logProbs beam =
      .ok { r with
              mLogProbs := r.mLogProbs.set beam.toNat
                             (listResize (r.mLogProbs.getD beam.toNat [])
                               (r.mPromptLen - r.mOrigPromptLen).toNat 0 ++ logProbs) } := by
    unfold GenericLlmRequest.setLogProbs
    rw [if_pos ⟨hb0, hb⟩]
  have hproj : ∀ (l : List (List Int)),
      ({ r with mLogProbs := l } : GenericLlmRequest T).mLogProbs = l := fun _ => rfl
  refine ⟨_, hok, ?_, ?_, ?_, ?_, ?_⟩
  · rw [hproj, hnew, List.length_append, length_listResize]
    push_cast
    omega
  · rw [hproj, hnew]
    exact List.drop_left' (length_listResize _ _ _)
  · rw [hproj, hnew]
    exact List.take_left' (length_listResize _ _ _)
  · intro b hbne
    rw [hproj]
    by_cases hblt : b < r.mLogProbs.length
    · rw [List.getD_eq_getElem _ _ (by rw [List.length_set]; exact hblt),
        List.getD_eq_getElem _ _ hblt]
      exact List.getElem_set_ne (Ne.symm hbne) _
    · rw [List.getD_eq_default _ _ (by rw [List.length_set]; omega),
        List.getD_eq_default _ _ (by omega)]
  · rw [hproj]
    exact List.length_set _ _ _

/-- Witness for `setLogProbs_spec` at `lpReq` (origPromptLen 50, promptLen
60): ten values land at indices 10 through 19. -/
theorem setLogProbs_spec_witness :
    ∃ r', lpReq.setLogProbs [1, 2, 3, 4, 5, 6, 7, 8, 9, 10] 0 = .ok r' ∧
      ((r'.mLogProbs.getD (0 : Int).toNat []).length : Int)
          = (lpReq.mPromptLen - lpReq.mOrigPromptLen) + ([1, 2, 3, 4, 5, 6, 7, 8, 9, 10] : List Int).length ∧
      (r'.mLogProbs.getD (0 : Int).toNat []).drop (lpReq.mPromptLen - lpReq.mOrigPromptLen).toNat
          = [1, 2, 3, 4, 5, 6, 7, 8, 9, 10] ∧
      (r'.mLogProbs.getD (0 : Int).toNat []).take (lpReq.mPromptLen - lpReq.mOrigPromptLen).toNat
          = listResize (lpReq.mLogProbs.getD (0 : Int).toNat [])
              (lpReq.mPromptLen - lpReq.mOrigPromptLen).toNat 0 ∧
      (∀ b : Nat, b ≠ (0 : Int).toNat → r'.mLogProbs.getD b [] = lpReq.mLogProbs.getD b []) ∧
      r'.mLogProbs.length = lpReq.mLogProbs.length :=
  setLogProbs_spec lpReq [1, 2, 3, 4, 5, 6, 7, 8, 9, 10] 0
    (by decide) (by decide) (by decide)

/-- Claim C1: for a single-beam request, `pause(maxInputLen)` sets the new
prompt length to `min(maxInputLen, promptLen + maximum generated tokens)`,
decreases the max-new-tokens budget by the prompt growth, resizes the beam
token sequence to the new prompt length, resizes the beam log-prob sequence
to `newPromptLen - promptLen` when log-probs are returned, and resets the
chunk cursor to 0, clears the chunk size, clears the execution slot and
enters `ContextInit`.  The hypotheses are the data-model invariants (one
beam sequence, at least `promptLen` long, nonnegative prompt length) plus
the caller guarantee `promptLen ≤ maxInputLen`. -/
theorem pause_singleBeam_spec (r : GenericLlmRequest T) (maxInputLen : Int)
    (hbw : r.mSamplingConfig.beamWidth = 1)
    (hlen : r.mTokens.length = 1)
    (hlp : r.mLogProbs.length = 1)
    (hts : ∀ ts ∈ r.mTokens, r.mPromptLen ≤ (ts.length : Int))
    (hp0 : 0 ≤ r.mPromptLen)
    (hmax : r.mPromptLen ≤ maxInputLen) :
    (r.pause maxInputLen).mPromptLen
        = min maxInputLen (r.mPromptLen + r.getMaxNumGeneratedTokens) ∧
    (r.pause maxInputLen).mMaxNewTokens
        = r.mMaxNewTokens - ((r.pause maxInputLen).mPromptLen - r.mPromptLen) ∧
    (∀ ts ∈ (r.pause maxInputLen).mTokens,
        (ts.length : Int) = (r.pause maxInputLen).mPromptLen) ∧
    (r.mReturnLogProbs = true →
      ∀ lp ∈ (r.pause maxInputLen).mLogProbs,
        (lp.length : Int) = (r.pause maxInputLen).mPromptLen - r.mPromptLen) ∧
    (r.pause maxInputLen).mContextCurrentPosition = 0 ∧
    (r.pause maxInputLen).mContextChunkSize = none ∧
    (r.pause maxInputLen).mSeqSlot = -1 ∧
    (r.pause maxInputLen).mState = .REQUEST_STATE_CONTEXT_INIT := by
  have hnbw : ¬ 1 < r.mSamplingConfig.beamWidth := by omega
  obtain ⟨ts0, hts0⟩ := List.length_eq_one.mp hlen
  have hmb : r.getMaxBeamNumTokens = (ts0.length : Int) := by
    unfold GenericLlmRequest.getMaxBeamNumTokens
    rw [hbw]
    show max 0 ((r.mTokens.getD 0 []).length : Int) = (ts0.length : Int)
    rw [hts0]
    exact max_eq_right (Int.natCast_nonneg _)
  have hgen : r.mPromptLen + r.getMaxNumGeneratedTokens = (ts0.length : Int) := by
    unfold GenericLlmRequest.getMaxNumGeneratedTokens
    omega
  have hlen0 : r.mPromptLen ≤ (ts0.length : Int) := hts ts0 (by rw [hts0]; exact List.mem_singleton.mpr rfl)
  have hn0 : 0 ≤ min maxInputLen (r.mPromptLen + r.getMaxNumGeneratedTokens) := by omega
  have hnp : r.mPromptLen ≤ min maxInputLen (r.mPromptLen + r.getMaxNumGeneratedTokens) := by
    omega
  refine ⟨?_, ?_, ?_, ?_, ?_, ?_, ?_, ?_⟩
  · simp [GenericLlmRequest.pause, hnbw]
  · simp [GenericLlmRequest.pause, hnbw]
  · intro ts hmem
    simp only [GenericLlmRequest.pause, hnbw, if_false] at hmem ⊢
    obtain ⟨ts1, _, rfl⟩ := List.mem_map.mp hmem
    rw [length_listResize]
    exact Int.toNat_of_nonneg hn0
  · intro hRet lp hmem
    simp only [GenericLlmRequest.pause, hnbw, if_false, hRet, if_true] at hmem ⊢
    rw [hlen, show (1 : Nat) = r.mLogProbs.length from hlp.symm, resizeFirst_eq_map] at hmem
    obtain ⟨lp1, _, rfl⟩ := List.mem_map.mp hmem
    rw [length_listResize]
    exact Int.toNat_of_nonneg (by omega)
  · simp [GenericLlmRequest.pause, hnbw]
  · simp [GenericLlmRequest.pause, hnbw]
  · simp [GenericLlmRequest.pause, hnbw]
  · simp [GenericLlmRequest.pause, hnbw]

/-- Witness for `pause_singleBeam_spec` at `sbReq` (prompt 50, 20 generated,
`maxInputLen = 60`). -/
theorem pause_singleBeam_spec_witness :
    (sbReq.pause 60).mPromptLen
        = min 60 (sbReq.mPromptLen + sbReq.getMaxNumGeneratedTokens) ∧
    (sbReq.pause 60).mMaxNewTokens
        = sbReq.mMaxNewTokens - ((sbReq.pause 60).mPromptLen - sbReq.mPromptLen) ∧
    (∀ ts ∈ (sbReq.pause 60).mTokens, (ts.length : Int) = (sbReq.pause 60).mPromptLen) ∧
    (sbReq.mReturnLogProbs = true →
      ∀ lp ∈ (sbReq.pause 60).mLogProbs,
        (lp.length : Int) = (sbReq.pause 60).mPromptLen - sbReq.mPromptLen) ∧
    (sbReq.pause 60).mContextCurrentPosition = 0 ∧
    (sbReq.pause 60).mContextChunkSize = none ∧
    (sbReq.pause 60).mSeqSlot = -1 ∧
    (sbReq.pause 60).mState = .REQUEST_STATE_CONTEXT_INIT :=
  pause_singleBeam_spec sbReq 60 (by decide) (by decide) (by decide)
    (by decide) (by decide) (by decide)

/-- Claim C3: for every reachable request with beam width greater than 1,
the prompt length equals the original prompt length: the constructor makes
them equal, and no operation (`addNewToken`, `addNewTokens`,
`setGeneratedTokens`, `setLogProbs`, chunk-cursor operations, `pause` whose
multi-beam branch never writes `promptLen`, or any other) moves it. -/
theorem multiBeam_promptLen_invariant (r : GenericLlmRequest T)
    (hr : ReachableRequest r) (hbw : 1 < r.mSamplingConfig.beamWidth) :
    r.mPromptLen = r.mOrigPromptLen :=
  (wfInv_of_reachable r hr).2.2.2.2 hbw

/-- Witness for `multiBeam_promptLen_invariant` at the freshly constructed
beam-width-2 request `mbReq`. -/
theorem multiBeam_promptLen_invariant_witness :
    mbReq.mPromptLen = mbReq.mOrigPromptLen :=
  multiBeam_promptLen_invariant mbReq ⟨mbArgs, mbReq, [], rfl, rfl⟩ (by decide)

/-- Claim C2: for every reachable multi-beam request, `pause(maxInputLen)`
truncates every beam token sequence to the original prompt length (the
resize target is the current `promptLen`, which equals `origPromptLen` by
the multi-beam invariant), clears every beam log-prob sequence when
log-probs are returned, leaves `promptLen` and the max-new-tokens budget
unchanged, and enters `ContextInit`. -/
theorem pause_multiBeam_spec (r : GenericLlmRequest T) (maxInputLen : Int)
    (hr : ReachableRequest r) (hbw : 1 < r.mSamplingConfig.beamWidth) :
    (r.pause maxInputLen).mTokens
        = r.mTokens.map (fun ts => ts.take r.mOrigPromptLen.toNat) ∧
    (∀ ts ∈ (r.pause maxInputLen).mTokens, (ts.length : Int) = r.mOrigPromptLen) ∧
    (r.mReturnLogProbs = true →
      ∀ lp ∈ (r.pause maxInputLen).mLogProbs, lp = ([] : List Int)) ∧
    (r.pause maxInputLen).mPromptLen = r.mPromptLen ∧
    (r.pause maxInputLen).mMaxNewTokens = r.mMaxNewTokens ∧
    (r.pause maxInputLen).mPromptLen = r.mOrigPromptLen ∧
    (r.pause maxInputLen).mContextCurrentPosition = 0 ∧
    (r.pause maxInputLen).mContextChunkSize = none ∧
    (r.pause maxInputLen).mSeqSlot = -1 ∧
    (r.pause maxInputLen).mState = .REQUEST_STATE_CONTEXT_INIT := by
  obtain ⟨h1, h2, h3, h4, h5⟩ := wfInv_of_reachable r hr
  have hpo : r.mPromptLen = r.mOrigPromptLen := h5 hbw
  refine ⟨?_, ?_, ?_, ?_, ?_, ?_, ?_, ?_, ?_, ?_⟩
  · simp only [GenericLlmRequest.pause, hbw, if_true]
    refine List.map_congr_left (fun ts hts => ?_)
    rw [listResize_eq_take _ _ _ (Int.toNat_le.mpr (h3 ts hts)), hpo]
  · intro ts hmem
    simp only [GenericLlmRequest.pause, hbw, if_true] at hmem
    obtain ⟨ts1, hts1, rfl⟩ := List.mem_map.mp hmem
    rw [length_listResize]
    rw [hpo] at *
    exact Int.toNat_of_nonneg h4
  · intro hRet lp hmem
    simp only [GenericLlmRequest.pause, hbw, if_true, hRet] at hmem
    rw [h1, ← h2, clearFirst_eq_map] at hmem
    obtain ⟨lp1, _, rfl⟩ := List.mem_map.mp hmem
    rfl
  · simp [GenericLlmRequest.pause, hbw]
  · simp [GenericLlmRequest.pause, hbw]
  · simp [GenericLlmRequest.pause, hbw, hpo]
  · simp [GenericLlmRequest.pause, hbw]
  · simp [GenericLlmRequest.pause, hbw]
  · simp [GenericLlmRequest.pause, hbw]
  · simp [GenericLlmRequest.pause, hbw]

/-- Witness for `pause_multiBeam_spec` at the reachable beam-width-2 request
`mbReq`, paused with `maxInputLen = 7`. -/
theorem pause_multiBeam_spec_witness :
    (mbReq.pause 7).mTokens
        = mbReq.mTokens.map (fun ts => ts.take mbReq.mOrigPromptLen.toNat) ∧
    (∀ ts ∈ (mbReq.pause 7).mTokens, (ts.length : Int) = mbReq.mOrigPromptLen) ∧
    (mbReq.mReturnLogProbs = true →
      ∀ lp ∈ (mbReq.pause 7).mLogProbs, lp = ([] : List Int)) ∧
    (mbReq.pause 7).mPromptLen = mbReq.mPromptLen ∧
    (mbReq.pause 7).mMaxNewTokens = mbReq.mMaxNewTokens ∧
    (mbReq.pause 7).mPromptLen = mbReq.mOrigPromptLen ∧
    (mbReq.pause 7).mContextCurrentPosition = 0 ∧
    (mbReq.pause 7).mContextChunkSize = none ∧
    (mbReq.pause 7).mSeqSlot = -1 ∧
    (mbReq.pause 7).mState = .REQUEST_STATE_CONTEXT_INIT :=
  pause_multiBeam_spec mbReq 7 ⟨mbArgs, mbReq, [], rfl, rfl⟩ (by decide)

/-- Claim C5: on a `ContextInit` request with prompt length 100, running the
alternating `setContextChunkSize` / `moveToNextContextChunk` sequence with
sizes 30, 30, 30, 10 (`c5Trace k` is the trace prefix of length `k`):
`isFirstContextChunk` is true exactly at the two states before the first
advance; among the four states holding a pending assigned chunk
(`k = 1, 3, 5, 7`), `isLastContextChunk` is true only at the final chunk;
`getContextRemainingLength` strictly decreases across the advances
(100, 70, 40, 10, 0); and `0 ≤ position ≤ promptLen` at every state. -/
theorem chunked_context_trace_spec :
    ((c5State (c5Trace 0)).map GenericLlmRequest.isFirstContextChunk = .ok true) ∧
    ((c5State (c5Trace 1)).map GenericLlmRequest.isFirstContextChunk = .ok true) ∧
    ((c5State (c5Trace 2)).map GenericLlmRequest.isFirstContextChunk = .ok false) ∧
    ((c5State (c5Trace 3)).map GenericLlmRequest.isFirstContextChunk = .ok false) ∧
    ((c5State (c5Trace 4)).map GenericLlmRequest.isFirstContextChunk = .ok false) ∧
    ((c5State (c5Trace 5)).map GenericLlmRequest.isFirstContextChunk = .ok false) ∧
    ((c5State (c5Trace 6)).map GenericLlmRequest.isFirstContextChunk = .ok false) ∧
    ((c5State (c5Trace 7)).map GenericLlmRequest.isFirstContextChunk = .ok false) ∧
    ((c5State (c5Trace 8)).map GenericLlmRequest.isFirstContextChunk = .ok false) ∧
    ((c5State (c5Trace 1)).map GenericLlmRequest.isLastContextChunk = .ok false) ∧
    ((c5State (c5Trace 3)).map GenericLlmRequest.isLastContextChunk = .ok false) ∧
    ((c5State (c5Trace 5)).map GenericLlmRequest.isLastContextChunk = .ok false) ∧
    ((c5State (c5Trace 7)).map GenericLlmRequest.isLastContextChunk = .ok true) ∧
    ((c5State (c5Trace 0)).map GenericLlmRequest.getContextRemainingLength = .ok 100) ∧
    ((c5State (c5Trace 2)).map GenericLlmRequest.getContextRemainingLength = .ok 70) ∧
    ((c5State (c5Trace 4)).map GenericLlmRequest.getContextRemainingLength = .ok 40) ∧
    ((c5State (c5Trace 6)).map GenericLlmRequest.getContextRemainingLength = .ok 10) ∧
    ((c5State (c5Trace 8)).map GenericLlmRequest.getContextRemainingLength = .ok 0) ∧
    ((c5State (c5Trace 0)).map (fun r => decide (0 ≤ r.getContextCurrentPosition ∧ r.getContextCurrentPosition ≤ r.mPromptLen)) = .ok true) ∧
    ((c5State (c5Trace 1)).map (fun r => decide (0 ≤ r.getContextCurrentPosition ∧ r.getContextCurrentPosition ≤ r.mPromptLen)) = .ok true) ∧
    ((c5State (c5Trace 2)).map (fun r => decide (0 ≤ r.getContextCurrentPosition ∧ r.getContextCurrentPosition ≤ r.mPromptLen)) = .ok true) ∧
    ((c5State (c5Trace 3)).map (fun r => decide (0 ≤ r.getContextCurrentPosition ∧ r.getContextCurrentPosition ≤ r.mPromptLen)) = .ok true) ∧
    ((c5State (c5Trace 4)).map (fun r => decide (0 ≤ r.getContextCurrentPosition ∧ r.getContextCurrentPosition ≤ r.mPromptLen)) = .ok true) ∧
    ((c5State (c5Trace 5)).map (fun r => decide (0 ≤ r.getContextCurrentPosition ∧ r.getContextCurrentPosition ≤ r.mPromptLen)) = .ok true) ∧
    ((c5State (c5Trace 6)).map (fun r => decide (0 ≤ r.getContextCurrentPosition ∧ r.getContextCurrentPosition ≤ r.mPromptLen)) = .ok true) ∧
    ((c5State (c5Trace 7)).map (fun r => decide (0 ≤ r.getContextCurrentPosition ∧ r.getContextCurrentPosition ≤ r.mPromptLen)) = .ok true) ∧
    ((c5State (c5Trace 8)).map (fun r => decide (0 ≤ r.getContextCurrentPosition ∧ r.getContextCurrentPosition ≤ r.mPromptLen)) = .ok true) :=
  ⟨rfl, rfl, rfl, rfl, rfl, rfl, rfl, rfl, rfl,
   rfl, rfl, rfl, rfl,
   rfl, rfl, rfl, rfl, rfl,
   rfl, rfl, rfl, rfl, rfl, rfl, rfl, rfl, rfl⟩

/-- Claim C8 as stated is false on the code: after the trace `cexOps`
(assign a chunk size, then pause), `isFullContextRequest` is true even
though a chunk size had been assigned earlier in the request's history
(`pause` resets `mContextChunkSize` to disengaged). -/
theorem isFullContextRequest_history_counterexample :
    ((mkGenericLlmRequest cexArgs).bind (fun r0 => runOps r0 cexOps)).map
        GenericLlmRequest.isFullContextRequest = .ok true ∧
    cexOps.any isChunkAssignOp = true :=
  ⟨rfl, rfl⟩

/-- Claim C8 (amended): for every reachable request, `isFullContextRequest`
is true iff the request is in `ContextInit` and no chunk size has been
assigned since construction or the most recent `pause` (which clears the
assignment). -/
theorem isFullContextRequest_amended (a : MkArgs T) (ops : List (Op T))
    (r0 r : GenericLlmRequest T)
    (h0 : mkGenericLlmRequest a = .ok r0) (h1 : runOps r0 ops = .ok r) :
    (r.isFullContextRequest = true ↔
      (r.mState = .REQUEST_STATE_CONTEXT_INIT ∧
        chunkAssignedSinceLastPause ops = false)) := by
  have hsome : r.mContextChunkSize.isSome = chunkAssignedSinceLastPause ops := by
    have h := runOps_chunkIsSome ops r0 r h1
    rw [mk_chunkIsNone a r0 h0] at h
    exact h
  unfold GenericLlmRequest.isFullContextRequest GenericLlmRequest.isContextInitState
  rw [Bool.and_eq_true, decide_eq_true_eq]
  constructor
  · rintro ⟨hs, hn⟩
    refine ⟨hs, ?_⟩
    rw [← hsome]
    cases hcc : r.mContextChunkSize with
    | none => rfl
    | some c => rw [hcc] at hn; exact absurd hn (by simp)
  · rintro ⟨hs, hfl⟩
    refine ⟨hs, ?_⟩
    rw [← hsome] at hfl
    cases hcc : r.mContextChunkSize with
    | none => rfl
    | some c => rw [hcc] at hfl; exact absurd hfl (by simp)

/-- Witness for `isFullContextRequest_amended` at the reachable state
`cexR` (after assigning a chunk size and pausing). -/
theorem isFullContextRequest_amended_witness :
    (cexR.isFullContextRequest = true ↔
      (cexR.mState = .REQUEST_STATE_CONTEXT_INIT ∧
        chunkAssignedSinceLastPause cexOps = false)) :=
  isFullContextRequest_amended cexArgs cexOps cexR0 cexR rfl rfl


end TensorrtLlm.BatchManager
